import Mathlib

/-!
Shallow embedding of `pkg/k8sutil/k8sutil.go` from the kong-operator
repository, together with theorems settling the specification claims
about it.

Modelling conventions:
* Remote-store interaction is parametric: each function takes an
  environment record holding the responses the Kubernetes client would
  return (the fetched object and error for `Get`, the error for
  `Create`/`Update`/`Delete`, the item list for `List`), and returns the
  list of write actions it issues together with the Go function's
  returned error (`none` = nil).
* Go `*int32` values are modelled as `Option IntPtr`, where an `IntPtr`
  records a heap address and the pointed-to value; Go pointer equality
  (`==` on `*int32`) compares addresses only, and `nil` is `none`.
* Strings, labels and ports are copied verbatim from the source literals.
-/

namespace KongOperator

/-- Kubernetes API errors as the Go code distinguishes them: the
not-found signal (recognised by `k8serrors.IsNotFound`) versus any
other error, carrying a message. -/
inductive K8sError where
  | notFound
  | other (msg : String)
deriving DecidableEq, Repr

/-- Embeds `k8serrors.IsNotFound`. -/
def IsNotFound : K8sError → Bool
  | K8sError.notFound => true
  | K8sError.other _ => false

/-- A Go pointer to an `int32`: heap address plus pointed-to value. -/
structure IntPtr where
  addr : Nat
  val : Int
deriving DecidableEq, Repr

/-- Go pointer equality on `*int32`: both nil, or the same address. -/
def ptrEq : Option IntPtr → Option IntPtr → Bool
  | none, none => true
  | some p, some q => p.addr == q.addr
  | _, _ => false

/-- The integer replica count a `*int32` denotes (`none` for nil). -/
def replicaCount : Option IntPtr → Option Int :=
  Option.map IntPtr.val

/-- A pair of pointers is memory-consistent when equal addresses imply
equal pointed-to values, as is forced in any single Go heap. -/
def ValidPtrs (p q : Option IntPtr) : Prop :=
  ∀ a b, p = some a → q = some b → a.addr = b.addr → a.val = b.val

/-! ### Constants (lines 52-61 of the source) -/

def tprName : String := "kong-cluster.enterprises.upmc.com"

def kongProxyServiceName : String := "kong-proxy"

def kongAdminServiceName : String := "kong-admin"

def kongDeploymentName : String := "kong"

def kongPostgresSecretName : String := "kong-postgres"

/-! ### Services -/

/-- One entry of `v1.ServicePort`: name, exposed port, target port
(`intstr.FromInt`), protocol. -/
structure ServicePort where
  name : String
  port : Int
  targetPort : Int
  protocol : String
deriving DecidableEq, Repr

/-- The two `v1.ServiceType` values the source uses. -/
inductive ServiceType where
  | loadBalancer
  | clusterIP
deriving DecidableEq, Repr

/-- The fields of `v1.ServiceSpec` the source sets. -/
structure ServiceSpec where
  selector : List (String × String)
  ports : List ServicePort
  type_ : ServiceType
  loadBalancerSourceRanges : List String
deriving DecidableEq, Repr

/-- A `v1.Service`: object meta name and labels plus the spec. -/
structure Service where
  name : String
  labels : List (String × String)
  spec : ServiceSpec
deriving DecidableEq, Repr

/-- The zero-valued `v1.Service` the client yields when a lookup fails. -/
def emptyService : Service :=
  { name := ""
    labels := []
    spec :=
      { selector := []
        ports := []
        type_ := ServiceType.clusterIP
        loadBalancerSourceRanges := [] } }

/-- The `clientSvc` literal of `CreateKongProxyService`
(lines 263-293 of the source). -/
def kongProxyService : Service :=
  { name := kongProxyServiceName
    labels := [("name", kongProxyServiceName)]
    spec :=
      { selector := [("app", "kong")]
        ports :=
          [ { name := "kong-proxy"
              port := 80
              targetPort := 8000
              protocol := "TCP" },
            { name := "kong-proxy-ssl"
              port := 443
              targetPort := 8443
              protocol := "TCP" } ]
        type_ := ServiceType.loadBalancer
        loadBalancerSourceRanges := ["0.0.0.0/0"] } }

/-- The `clientSvc` literal of `CreateKongAdminService`
(lines 319-340 of the source). -/
def kongAdminService : Service :=
  { name := kongAdminServiceName
    labels := [("name", kongAdminServiceName)]
    spec :=
      { selector := [("app", "kong")]
        ports :=
          [ { name := "kong-admin"
              port := 8444
              targetPort := 8444
              protocol := "TCP" } ]
        type_ := ServiceType.clusterIP
        loadBalancerSourceRanges := [] } }

/-- Remote-store responses a service ensure pass may consume: the
`Get` result (object and error) and the `Create` error. -/
structure SvcEnv where
  getResult : Service × Option K8sError
  createResult : Option K8sError

/-- A write action issued against the service collection. -/
inductive SvcAction where
  | create (s : Service)
deriving DecidableEq, Repr

/-- Embeds `CreateKongProxyService` (lines 254-307): fetch by name;
if the fetched object's name is empty, build the canonical service and
create it, returning the create error if any; otherwise, if the lookup
errored, return that error; otherwise return nil. -/
def CreateKongProxyService (env : SvcEnv) : List SvcAction × Option K8sError :=
  let svc := env.getResult.1
  let err := env.getResult.2
  if svc.name.length == 0 then
    ([SvcAction.create kongProxyService], env.createResult)
  else if err.isSome then
    ([], err)
  else
    ([], none)

/-- Embeds `CreateKongAdminService` (lines 310-354), identical in
structure to the proxy variant but with the admin literal. -/
def CreateKongAdminService (env : SvcEnv) : List SvcAction × Option K8sError :=
  let svc := env.getResult.1
  let err := env.getResult.2
  if svc.name.length == 0 then
    ([SvcAction.create kongAdminService], env.createResult)
  else if err.isSome then
    ([], err)
  else
    ([], none)

/-! ### Third-party resource bootstrap -/

/-- The fields of `v1beta1.ThirdPartyResource` the source sets: object
name, version names, description. -/
structure ThirdPartyResource where
  name : String
  versions : List String
  description : String
deriving DecidableEq, Repr

/-- Remote-store responses for the bootstrap pass: the `Get` error
(`none` = the schema was found) and the `Create` error. -/
structure TprEnv where
  getResult : Option K8sError
  createResult : Option K8sError

/-- Outcome of the bootstrap pass: a panic (the Go code panics on a
non-not-found lookup error and on a create error), or a normal return of
nil after creating the schema (`ok (some t)`) or after skipping because
it already exists (`ok none`). -/
inductive TprResult where
  | panic (e : K8sError)
  | ok (created : Option ThirdPartyResource)
deriving DecidableEq, Repr

/-- Embeds `CreateKubernetesThirdPartyResource` (lines 164-192): look
up `tprName`; on `IsNotFound` build the schema document with the single
version v1 and the description literal and create it (panicking if the
create fails); on any other lookup error panic; if found, skip and
return nil. -/
def CreateKubernetesThirdPartyResource (env : TprEnv) : TprResult :=
  match env.getResult with
  | some e =>
    if IsNotFound e then
      match env.createResult with
      | some ce => TprResult.panic ce
      | none =>
        TprResult.ok (some
          { name := tprName
            versions := ["v1"]
            description := "Managed kong clusters" })
    else
      TprResult.panic e
  | none => TprResult.ok none

/-! ### Custom resource, cluster listing, event dispatch -/

/-- Modelled from the spec: the `tpr.KongCluster` type lives outside the
provided source tree; per the spec's ClusterResource it carries a name,
a desired replica count, a base container image and a namespace, plus
the `Type` field the dispatcher overwrites. -/
structure KongCluster where
  type_ : String
  name : String
  replicas : Int
  baseImage : String
  namespace_ : String
deriving DecidableEq, Repr

/-- Embeds the retry loop of `GetKongClusters` (lines 195-212) over the
sequence of results successive list fetches would return. Each failed
attempt logs, sleeps 5 seconds (recorded in the first component) and
retries; the first successful attempt breaks the loop and the function
returns the fetched items with a nil error. `none` means the supplied
attempt sequence was exhausted without a success: the real loop is
still retrying. -/
def GetKongClusters :
    List (Except K8sError (List KongCluster)) →
    Option (List Nat × List KongCluster × Option K8sError)
  | [] => none
  | Except.ok items :: _ => some ([], items, none)
  | Except.error _ :: rest =>
    match GetKongClusters rest with
    | some (sleeps, items, e) => some (5 :: sleeps, items, e)
    | none => none

/-- The three notification kinds the informer delivers to the
dispatcher's handlers. -/
inductive WatchKind where
  | added
  | modified
  | deleted
deriving DecidableEq, Repr

/-- Embeds the three handlers of `MonitorKongEvents` (lines 221-236):
each casts the payload to `*tpr.KongCluster`, overwrites its `Type`
field with the matching literal and forwards it on the event channel. -/
def handleWatchEvent (k : WatchKind) (obj : KongCluster) : KongCluster :=
  match k with
  | WatchKind.added => { obj with type_ := "ADDED" }
  | WatchKind.modified => { obj with type_ := "MODIFIED" }
  | WatchKind.deleted => { obj with type_ := "DELETED" }

/-- What one notification makes the dispatcher emit: events sent on the
`events` channel and errors sent on the `errc` channel. The source
handlers send exactly one event and never send on `errc`. -/
def dispatchOne (n : WatchKind × KongCluster) : List KongCluster × List K8sError :=
  ([handleWatchEvent n.1 n.2], [])

/-- Embeds the dispatcher of `MonitorKongEvents` (lines 215-251) over a
finite notification sequence: the streams observed on the two returned
channels are the concatenations of the per-notification emissions. -/
def MonitorKongEvents (ns : List (WatchKind × KongCluster)) :
    List KongCluster × List K8sError :=
  ns.foldr (fun n acc => ((dispatchOne n).1 ++ acc.1, (dispatchOne n).2 ++ acc.2))
    ([], [])

/-! ### Deployments -/

/-- `v1.ObjectFieldSelector`: API version and field path. -/
structure ObjectFieldSelector where
  apiVersion : String
  fieldPath : String
deriving DecidableEq, Repr

/-- `v1.SecretKeySelector`: key plus the local object reference name. -/
structure SecretKeySelector where
  key : String
  name : String
deriving DecidableEq, Repr

/-- `v1.EnvVarSource`: at most one of a field reference or a secret key
reference, as the source populates it. -/
structure EnvVarSource where
  fieldRef : Option ObjectFieldSelector
  secretKeyRef : Option SecretKeySelector
deriving DecidableEq, Repr

/-- `v1.EnvVar`: name, literal value, optional value source. -/
structure EnvVar where
  name : String
  value : String
  valueFrom : Option EnvVarSource
deriving DecidableEq, Repr

/-- `v1.ContainerPort`: name, port number, protocol. -/
structure ContainerPort where
  name : String
  containerPort : Int
  protocol : String
deriving DecidableEq, Repr

/-- The fields of `v1.Container` the source sets. -/
structure Container where
  name : String
  image : String
  env : List EnvVar
  command : List String
  ports : List ContainerPort
deriving DecidableEq, Repr

/-- `v1.PodTemplateSpec`: pod labels and containers. -/
structure PodTemplateSpec where
  labels : List (String × String)
  containers : List Container
deriving DecidableEq, Repr

/-- `v1beta1.DeploymentSpec`: the replica pointer and the template. -/
structure DeploymentSpec where
  replicas : Option IntPtr
  template : PodTemplateSpec
deriving DecidableEq, Repr

/-- A `v1beta1.Deployment`: object meta name and labels plus the spec. -/
structure Deployment where
  name : String
  labels : List (String × String)
  spec : DeploymentSpec
deriving DecidableEq, Repr

/-- The zero-valued `v1beta1.Deployment` the client yields when a
lookup fails. -/
def emptyDeployment : Deployment :=
  { name := ""
    labels := []
    spec :=
      { replicas := none
        template := { labels := [], containers := [] } } }

/-- The deployment literal `CreateKongDeployment` builds on its create
path (lines 389-508 of the source), with the caller's image and replica
pointer spliced in. -/
def newKongDeployment (baseImage : String) (replicas : Option IntPtr) : Deployment :=
  { name := kongDeploymentName
    labels := [("name", kongDeploymentName)]
    spec :=
      { replicas := replicas
        template :=
          { labels := [("app", "kong"), ("name", kongDeploymentName)]
            containers :=
              [ { name := kongDeploymentName
                  image := baseImage
                  env :=
                    [ { name := "NAMESPACE"
                        value := ""
                        valueFrom := some
                          { fieldRef := some
                              { apiVersion := ""
                                fieldPath := "metadata.namespace" }
                            secretKeyRef := none } },
                      { name := "KONG_PG_USER"
                        value := ""
                        valueFrom := some
                          { fieldRef := none
                            secretKeyRef := some
                              { key := "KONG_PG_USER"
                                name := kongPostgresSecretName } } },
                      { name := "KONG_PG_PASSWORD"
                        value := ""
                        valueFrom := some
                          { fieldRef := none
                            secretKeyRef := some
                              { key := "KONG_PG_PASSWORD"
                                name := kongPostgresSecretName } } },
                      { name := "KONG_PG_HOST"
                        value := ""
                        valueFrom := some
                          { fieldRef := none
                            secretKeyRef := some
                              { key := "KONG_PG_HOST"
                                name := kongPostgresSecretName } } },
                      { name := "KONG_PG_DATABASE"
                        value := ""
                        valueFrom := some
                          { fieldRef := none
                            secretKeyRef := some
                              { key := "KONG_PG_DATABASE"
                                name := kongPostgresSecretName } } },
                      { name := "KONG_HOST_IP"
                        value := ""
                        valueFrom := some
                          { fieldRef := some
                              { apiVersion := "v1"
                                fieldPath := "status.podIP" }
                            secretKeyRef := none } },
                      { name := "KONG_ADMIN_LISTEN"
                        value := "127.0.0.1:8001"
                        valueFrom := none } ]
                  command :=
                    [ "/bin/sh", "-c",
                      "KONG_CLUSTER_ADVERTISE=$(KONG_HOST_IP):7946 KONG_NGINX_DAEMON=\x27off\x27 kong start" ]
                  ports :=
                    [ { name := "proxy"
                        containerPort := 8000
                        protocol := "TCP" },
                      { name := "proxy-ssl"
                        containerPort := 8443
                        protocol := "TCP" },
                      { name := "surf-tcp"
                        containerPort := 7946
                        protocol := "TCP" },
                      { name := "surf-udp"
                        containerPort := 7946
                        protocol := "UDP" } ] } ] } } }

/-- Remote-store responses a deployment ensure pass may consume. -/
structure DeployEnv where
  getResult : Deployment × Option K8sError
  createResult : Option K8sError
  updateResult : Option K8sError

/-- A write action issued against the deployment collection. -/
inductive DeployAction where
  | create (d : Deployment)
  | update (d : Deployment)
deriving DecidableEq, Repr

/-- Embeds `CreateKongDeployment` (lines 381-535): fetch by name; if
the fetched object's name is empty, build the full template and create
it, returning the create error if any; otherwise return a non-nil
lookup error, and else compare the fetched replica pointer against the
caller's pointer with Go pointer equality — on inequality overwrite the
pointer on the fetched object and issue an update, whose error is only
logged, and return nil. -/
def CreateKongDeployment (env : DeployEnv) (baseImage : String)
    (replicas : Option IntPtr) : List DeployAction × Option K8sError :=
  let deployment := env.getResult.1
  let err := env.getResult.2
  if deployment.name.length == 0 then
    ([DeployAction.create (newKongDeployment baseImage replicas)], env.createResult)
  else if err.isSome then
    ([], err)
  else if ¬ ptrEq deployment.spec.replicas replicas then
    let d := { deployment with spec := { deployment.spec with replicas := replicas } }
    ([DeployAction.update d], none)
  else
    ([], none)

/-! ### Teardown -/

/-- A `v1beta1.ReplicaSet` as the teardown code uses it: its name. -/
structure ReplicaSet where
  name : String
deriving DecidableEq, Repr

/-- Remote-store responses a teardown pass may consume; per-replica-set
delete outcomes are a map from name to error. -/
structure TeardownEnv where
  getResult : Deployment × Option K8sError
  freshAddr : Nat
  updateResult : Option K8sError
  deleteDeploymentResult : Option K8sError
  listResult : List ReplicaSet × Option K8sError
  deleteReplicaSetResult : String → Option K8sError

/-- A write or wait action issued during teardown. -/
inductive TeardownAction where
  | updateDeployment (d : Deployment)
  | deleteDeployment (name : String)
  | sleepSeconds (n : Nat)
  | deleteReplicaSet (name : String)
deriving DecidableEq, Repr

/-- Embeds `DeleteKongDeployment` (lines 538-587): fetch the deployment
and return any lookup error; scale it to a fresh zero pointer and
update (error only logged); delete it by name (error only logged);
sleep 2 seconds; list replica sets labelled `app=kong,name=kong` (error
only logged) and delete each listed one, logging per-item failures and
continuing; finally return nil. -/
def DeleteKongDeployment (env : TeardownEnv) : List TeardownAction × Option K8sError :=
  let deployment := env.getResult.1
  let err := env.getResult.2
  if err.isSome then
    ([], err)
  else
    let scaled :=
      { deployment with spec :=
          { deployment.spec with replicas := some { addr := env.freshAddr, val := 0 } } }
    let replicaSets := env.listResult.1
    (TeardownAction.updateDeployment scaled ::
      TeardownAction.deleteDeployment scaled.name ::
      TeardownAction.sleepSeconds 2 ::
      replicaSets.map (fun rs => TeardownAction.deleteReplicaSet rs.name),
     none)

/-! ### Concrete sample data used by witness statements -/

/-- A sample custom resource. -/
def c9cluster : KongCluster :=
  { type_ := ""
    name := "c1"
    replicas := 3
    baseImage := "kong:0.9"
    namespace_ := "default" }

/-- A sample attempt sequence: one failed fetch, then a success. -/
def c9attempts : List (Except K8sError (List KongCluster)) :=
  [Except.error (K8sError.other "server busy"), Except.ok [c9cluster]]

/-! ### Helper lemmas -/

/-- Pointers into a consistent heap whose replica counts differ compare
unequal under Go pointer equality. -/
theorem ptrEq_eq_false_of_count_ne (p q : Option IntPtr) (hm : ValidPtrs p q)
    (h : replicaCount p ≠ replicaCount q) : ptrEq p q = false := by
  cases p with
  | none =>
    cases q with
    | none => exact absurd rfl h
    | some b => rfl
  | some a =>
    cases q with
    | none => rfl
    | some b =>
      simp only [ptrEq, beq_eq_false_iff_ne, ne_eq]
      intro haddr
      exact h (by simp [replicaCount, hm a b rfl rfl haddr])

/-! ### Claims about the endpoint services -/

/-- Claim C7: when no endpoint service exists (the lookup yields the
zero-valued object and a not-found error), the ensure pass creates
exactly one ingress service named kong-proxy with ports 80 to 8000 and
443 to 8443 over TCP, load-balanced and open to 0.0.0.0/0, and exactly
one control service named kong-admin with port 8444 to 8444 over TCP
and cluster-IP exposure. -/
theorem C7_create_on_absence :
    CreateKongProxyService { getResult := (emptyService, some K8sError.notFound), createResult := none } =
      ([SvcAction.create kongProxyService], none) ∧
    CreateKongAdminService { getResult := (emptyService, some K8sError.notFound), createResult := none } =
      ([SvcAction.create kongAdminService], none) ∧
    kongProxyService.name = "kong-proxy" ∧
    kongProxyService.spec.ports =
      [{ name := "kong-proxy", port := 80, targetPort := 8000, protocol := "TCP" },
       { name := "kong-proxy-ssl", port := 443, targetPort := 8443, protocol := "TCP" }] ∧
    kongProxyService.spec.type_ = ServiceType.loadBalancer ∧
    kongProxyService.spec.loadBalancerSourceRanges = ["0.0.0.0/0"] ∧
    kongAdminService.name = "kong-admin" ∧
    kongAdminService.spec.ports =
      [{ name := "kong-admin", port := 8444, targetPort := 8444, protocol := "TCP" }] ∧
    kongAdminService.spec.type_ = ServiceType.clusterIP :=
  ⟨rfl, rfl, rfl, rfl, rfl, rfl, rfl, rfl, rfl⟩

/-- Claim C3 counterexample: a lookup failing with an error other than
not-found yields the zero-valued service object, so both functions take
the create path — the create is attempted and the lookup error is not
returned, contradicting the claim. -/
theorem C3_counterexample_error_still_creates :
    CreateKongProxyService
        { getResult := (emptyService, some (K8sError.other "connection refused")), createResult := none } =
      ([SvcAction.create kongProxyService], none) ∧
    CreateKongAdminService
        { getResult := (emptyService, some (K8sError.other "connection refused")), createResult := none } =
      ([SvcAction.create kongAdminService], none) :=
  ⟨rfl, rfl⟩

/-- Claim C3 as amended: the lookup error is returned without a create
attempt only when the lookup also yields a service object with a
non-empty name; whenever the fetched object has an empty name the
create path runs instead, whatever the error kind. -/
theorem C3_amended_error_returned_when_name_nonempty (envP envA : SvcEnv)
    (svcP svcA : Service) (eP eA : K8sError)
    (hP : envP.getResult = (svcP, some eP)) (hPn : svcP.name.length ≠ 0)
    (hA : envA.getResult = (svcA, some eA)) (hAn : svcA.name.length ≠ 0) :
    CreateKongProxyService envP = ([], some eP) ∧
    CreateKongAdminService envA = ([], some eA) := by
  have hP0 : (svcP.name.length == 0) = false := by simpa using hPn
  have hA0 : (svcA.name.length == 0) = false := by simpa using hAn
  constructor
  · simp [CreateKongProxyService, hP, hP0]
  · simp [CreateKongAdminService, hA, hA0]

/-- Witness for the amended claim C3 at a concrete lookup response
carrying both a named object and a non-not-found error. -/
theorem C3_amended_witness :
    CreateKongProxyService
        { getResult := (kongProxyService, some (K8sError.other "timeout")), createResult := none } =
      ([], some (K8sError.other "timeout")) ∧
    CreateKongAdminService
        { getResult := (kongAdminService, some (K8sError.other "timeout")), createResult := none } =
      ([], some (K8sError.other "timeout")) :=
  C3_amended_error_returned_when_name_nonempty _ _ _ _ _ _ rfl (by decide) rfl (by decide)

/-! ### Claims about the third-party resource bootstrap -/

/-- Claim C8 counterexample: on a not-found lookup the schema is
created with description string Managed kong clusters, which is not the
claimed string ending in a period. -/
theorem C8_counterexample_description_has_no_period :
    CreateKubernetesThirdPartyResource { getResult := some K8sError.notFound, createResult := none } =
      TprResult.ok (some { name := tprName, versions := ["v1"], description := "Managed kong clusters" }) ∧
    "Managed kong clusters" ≠ "Managed kong clusters." :=
  ⟨rfl, by decide⟩

/-- Claim C8 as amended: the bootstrap looks the schema up by its
well-known name; on a not-found it creates it with the single version
v1 and the description string Managed kong clusters, with no trailing
period, and when the schema is already present it performs no write
and returns nil. -/
theorem C8_amended_bootstrap (env1 env2 : TprEnv) (e : K8sError)
    (h1 : env1.getResult = some e) (hnf : IsNotFound e = true)
    (hc : env1.createResult = none) (h2 : env2.getResult = none) :
    CreateKubernetesThirdPartyResource env1 =
      TprResult.ok (some { name := tprName, versions := ["v1"],
                           description := "Managed kong clusters" }) ∧
    CreateKubernetesThirdPartyResource env2 = TprResult.ok none := by
  constructor
  · simp [CreateKubernetesThirdPartyResource, h1, hnf, hc]
  · simp [CreateKubernetesThirdPartyResource, h2]

/-- Witness for the amended claim C8 at a concrete not-found lookup and
a concrete already-present lookup. -/
theorem C8_amended_witness :
    CreateKubernetesThirdPartyResource { getResult := some K8sError.notFound, createResult := none } =
      TprResult.ok (some { name := tprName, versions := ["v1"],
                           description := "Managed kong clusters" }) ∧
    CreateKubernetesThirdPartyResource { getResult := none, createResult := none } =
      TprResult.ok none :=
  C8_amended_bootstrap _ _ _ rfl rfl rfl rfl

/-! ### Claims about the event dispatcher -/

/-- Claim C6: each handler derives the Type field solely from the
notification kind — creation yields ADDED, update yields MODIFIED,
deletion yields DELETED — forwards the payload fields unchanged, and
the dispatcher emits exactly that one event per notification. -/
theorem C6_event_classification (obj : KongCluster) :
    (handleWatchEvent WatchKind.added obj).type_ = "ADDED" ∧
    (handleWatchEvent WatchKind.modified obj).type_ = "MODIFIED" ∧
    (handleWatchEvent WatchKind.deleted obj).type_ = "DELETED" ∧
    (∀ k, (handleWatchEvent k obj).name = obj.name ∧
      (handleWatchEvent k obj).replicas = obj.replicas ∧
      (handleWatchEvent k obj).baseImage = obj.baseImage ∧
      (handleWatchEvent k obj).namespace_ = obj.namespace_) ∧
    ∀ k, dispatchOne (k, obj) = ([handleWatchEvent k obj], []) := by
  refine ⟨rfl, rfl, rfl, fun k => ?_, fun k => rfl⟩
  cases k <;> exact ⟨rfl, rfl, rfl, rfl⟩

/-- Claim C10: no handler of the dispatcher ever sends on the error
channel, so over any finite notification sequence the error stream
observed from MonitorKongEvents is empty. -/
theorem C10_error_channel_stays_empty (ns : List (WatchKind × KongCluster)) :
    (MonitorKongEvents ns).2 = [] := by
  induction ns with
  | nil => rfl
  | cons n rest ih =>
    simpa [MonitorKongEvents, dispatchOne] using ih

/-! ### Claims about the deployment ensure pass -/

/-- Claim C1: the source compares the fetched replica pointer against
the desired one with Go pointer equality, not integer equality.
Evaluated at an existing deployment whose replica count already equals
the desired count but whose pointer is a different allocation, an
update is issued anyway, so the ensure pass is not update-free on a
second identical pass. -/
theorem C1_pointer_compare_updates_on_equal_counts :
    replicaCount (newKongDeployment "kong:0.9" (some { addr := 1, val := 3 })).spec.replicas =
      replicaCount (some { addr := 2, val := 3 }) ∧
    (CreateKongDeployment
        { getResult := (newKongDeployment "kong:0.9" (some { addr := 1, val := 3 }), none)
          createResult := none
          updateResult := none }
        "kong:0.9" (some { addr := 2, val := 3 })).1 =
      [DeployAction.update (newKongDeployment "kong:0.9" (some { addr := 2, val := 3 }))] :=
  ⟨rfl, rfl⟩

/-- Claim C2: on an existing deployment whose replica count differs
from the desired count over a consistent heap, the ensure pass issues
exactly one update whose object keeps the fetched name, labels and pod
template — the container image included — and changes only the replica
pointer, and the pass returns nil. -/
theorem C2_update_mutates_only_replicas (env : DeployEnv) (d : Deployment)
    (baseImage : String) (replicas : Option IntPtr)
    (hget : env.getResult = (d, none))
    (hname : d.name.length ≠ 0)
    (hmem : ValidPtrs d.spec.replicas replicas)
    (hdiff : replicaCount d.spec.replicas ≠ replicaCount replicas) :
    CreateKongDeployment env baseImage replicas =
      ([DeployAction.update
          { name := d.name
            labels := d.labels
            spec := { replicas := replicas, template := d.spec.template } }], none) := by
  have h0 : (d.name.length == 0) = false := by simpa using hname
  have hptr : ptrEq d.spec.replicas replicas = false :=
    ptrEq_eq_false_of_count_ne _ _ hmem hdiff
  simp [CreateKongDeployment, hget, h0, hptr]

/-- Witness for claim C2 at a concrete fetched deployment and desired
count: image kong:0.9, fetched count 3, desired count 5. -/
theorem C2_witness :
    CreateKongDeployment
        { getResult := (newKongDeployment "kong:0.9" (some { addr := 1, val := 3 }), none)
          createResult := none
          updateResult := none }
        "kong:0.9" (some { addr := 2, val := 5 }) =
      ([DeployAction.update
          { name := (newKongDeployment "kong:0.9" (some { addr := 1, val := 3 })).name
            labels := (newKongDeployment "kong:0.9" (some { addr := 1, val := 3 })).labels
            spec := { replicas := some { addr := 2, val := 5 }
                      template := (newKongDeployment "kong:0.9"
                        (some { addr := 1, val := 3 })).spec.template } }], none) :=
  C2_update_mutates_only_replicas _ _ _ _ rfl (by decide)
    (by intro a b ha hb hab; cases ha; cases hb; exact absurd hab (by decide))
    (by decide)

/-- Claim C4 counterexample: with an existing deployment, a differing
replica count and an environment in which the update fails, the
function still returns nil — the scaling-update error is logged but not
returned, contradicting the claim for the update half. -/
theorem C4_counterexample_update_error_swallowed :
    CreateKongDeployment
        { getResult := (newKongDeployment "kong:0.9" (some { addr := 1, val := 3 }), none)
          createResult := none
          updateResult := some (K8sError.other "update failed") }
        "kong:0.9" (some { addr := 2, val := 5 }) =
      ([DeployAction.update (newKongDeployment "kong:0.9" (some { addr := 2, val := 5 }))], none) :=
  rfl

/-- Claim C4 as amended: a failed workload create is returned to the
caller, but a failed replica-scaling update is only logged — when the
deployment already exists and the lookup succeeded, the function
returns nil whatever the update outcome. -/
theorem C4_amended_create_error_returned_update_error_logged
    (envC envU : DeployEnv) (d : Deployment) (img1 img2 : String)
    (r1 r2 : Option IntPtr) (e : K8sError)
    (hc : envC.getResult.1.name.length = 0) (hce : envC.createResult = some e)
    (hu : envU.getResult = (d, none)) (hn : d.name.length ≠ 0) :
    (CreateKongDeployment envC img1 r1).2 = some e ∧
    (CreateKongDeployment envU img2 r2).2 = none := by
  have h0 : (d.name.length == 0) = false := by simpa using hn
  constructor
  · simp [CreateKongDeployment, hc, hce]
  · cases hp : ptrEq d.spec.replicas r2 with
    | true => simp [CreateKongDeployment, hu, h0, hp]
    | false => simp [CreateKongDeployment, hu, h0, hp]

/-- Witness for the amended claim C4: a create that fails has its error
returned, and an update that fails is swallowed into a nil return. -/
theorem C4_amended_witness :
    (CreateKongDeployment
        { getResult := (emptyDeployment, some K8sError.notFound)
          createResult := some (K8sError.other "create failed")
          updateResult := none }
        "kong:0.9" (some { addr := 1, val := 3 })).2 = some (K8sError.other "create failed") ∧
    (CreateKongDeployment
        { getResult := (newKongDeployment "kong:0.9" (some { addr := 1, val := 3 }), none)
          createResult := none
          updateResult := some (K8sError.other "update failed") }
        "kong:0.9" (some { addr := 2, val := 5 })).2 = none :=
  C4_amended_create_error_returned_update_error_logged _ _ _ _ _ _ _ _
    rfl rfl rfl (by decide)

/-! ### Claims about teardown -/

/-- Claim C5: once the deployment lookup succeeded, teardown issues a
delete attempt for every replica set the list returned, whatever the
per-item delete outcomes recorded in the environment, and returns nil —
a failed per-item delete neither stops the remaining attempts nor
aborts the teardown. -/
theorem C5_teardown_deletes_each_replica_set (env : TeardownEnv) (d : Deployment)
    (hget : env.getResult = (d, none)) :
    (DeleteKongDeployment env).2 = none ∧
    ∀ rs ∈ env.listResult.1,
      TeardownAction.deleteReplicaSet rs.name ∈ (DeleteKongDeployment env).1 := by
  constructor
  · simp [DeleteKongDeployment, hget]
  · intro rs hrs
    simp only [DeleteKongDeployment, hget, Option.isSome_none, Bool.false_eq_true,
      if_false, List.mem_cons]
    exact Or.inr (Or.inr (Or.inr (List.mem_map.mpr ⟨rs, hrs, rfl⟩)))

/-- Witness for claim C5: three replica sets are listed, the delete of
the middle one fails in the environment, yet all three delete attempts
are issued and the teardown returns nil. -/
theorem C5_witness :
    (DeleteKongDeployment
      { getResult := (newKongDeployment "kong:0.9" (some { addr := 1, val := 3 }), none)
        freshAddr := 7
        updateResult := none
        deleteDeploymentResult := none
        listResult := ([{ name := "kong-111" }, { name := "kong-222" }, { name := "kong-333" }], none)
        deleteReplicaSetResult := fun n => if n == "kong-222" then some (K8sError.other "forbidden") else none }).2
      = none ∧
    ∀ rs ∈ ([{ name := "kong-111" }, { name := "kong-222" }, { name := "kong-333" }] : List ReplicaSet),
      TeardownAction.deleteReplicaSet rs.name ∈
        (DeleteKongDeployment
          { getResult := (newKongDeployment "kong:0.9" (some { addr := 1, val := 3 }), none)
            freshAddr := 7
            updateResult := none
            deleteDeploymentResult := none
            listResult := ([{ name := "kong-111" }, { name := "kong-222" }, { name := "kong-333" }], none)
            deleteReplicaSetResult := fun n => if n == "kong-222" then some (K8sError.other "forbidden") else none }).1 :=
  C5_teardown_deletes_each_replica_set _ _ rfl

/-! ### Claims about the cluster-list retry loop -/

/-- Claim C9: whenever the retry loop of GetKongClusters returns, its
error result is nil, every recorded sleep between attempts is the fixed
5 seconds, the attempt it returned from is the first successful fetch
and its item list is what is returned, and every earlier attempt was a
failure. -/
theorem C9_retry_until_success (rs : List (Except K8sError (List KongCluster)))
    (sleeps : List Nat) (items : List KongCluster) (e : Option K8sError)
    (h : GetKongClusters rs = some (sleeps, items, e)) :
    e = none ∧ (∀ s ∈ sleeps, s = 5) ∧
    rs.get? sleeps.length = some (Except.ok items) ∧
    ∀ i < sleeps.length, ∃ err, rs.get? i = some (Except.error err) := by
  induction rs generalizing sleeps items e with
  | nil => simp [GetKongClusters] at h
  | cons head rest ih =>
    cases head with
    | ok its =>
      simp only [GetKongClusters, Option.some.injEq, Prod.mk.injEq] at h
      obtain ⟨h1, h2, h3⟩ := h
      subst h1
      subst h2
      subst h3
      exact ⟨rfl, by simp, rfl, fun i hi => absurd hi (Nat.not_lt_zero i)⟩
    | error err0 =>
      cases hrec : GetKongClusters rest with
      | none =>
        simp only [GetKongClusters, hrec] at h
        exact Option.noConfusion h
      | some trip =>
        obtain ⟨sl, it, e2⟩ := trip
        simp only [GetKongClusters, hrec, Option.some.injEq, Prod.mk.injEq] at h
        obtain ⟨h1, h2, h3⟩ := h
        subst h1
        subst h2
        subst h3
        obtain ⟨ihe, ihs, ihok, ihfail⟩ := ih sl it e2 hrec
        refine ⟨ihe, ?_, ?_, ?_⟩
        · intro s hs
          rcases List.mem_cons.mp hs with h5 | h5
          · exact h5
          · exact ihs s h5
        · simpa using ihok
        · intro i hi
          cases i with
          | zero => exact ⟨err0, rfl⟩
          | succ j =>
            have hj : j < sl.length := by
              simpa [Nat.succ_lt_succ_iff] using hi
            simpa using ihfail j hj

/-- Witness for claim C9: one failed attempt followed by a successful
one yields one 5-second sleep and the fetched items with a nil error. -/
theorem C9_witness :
    (none : Option K8sError) = none ∧
    (∀ s ∈ ([5] : List Nat), s = 5) ∧
    c9attempts.get? ([5] : List Nat).length = some (Except.ok [c9cluster]) ∧
    ∀ i < ([5] : List Nat).length, ∃ err,
      c9attempts.get? i = some (Except.error err) :=
  C9_retry_until_success c9attempts [5] [c9cluster] none rfl

end KongOperator
